import Mathlib

/-!
Shallow embedding of the identifier-extraction and metadata-resolution core of
`src/lib/videoUtils.ts` (the `extractVideoId`, `formatDuration` and
`fetchVideoData` functions), together with theorems settling the claims about
that core.

Modelling conventions:
* JavaScript strings are Lean `String`s; the regex scans of `String.match` are
  embedded as structural scans over `List Char` that mirror the backtracking
  semantics of the concrete patterns (literal alternatives tried left to right
  at each start position, greedy character classes).
* The `Platform` argument is a `String`, as at the JavaScript runtime the
  TypeScript union `'youtube' | 'instagram' | 'tiktok'` is an ordinary string
  and the source switches on it with a `default` branch.
* The network is an explicit oracle (`NetworkEnv`) describing the outcome of
  each `fetch` the function may issue: the call may throw, return a non-ok
  response, or return ok with a parsed JSON payload whose optional fields model
  absent properties; `a || b` on strings/numbers is modelled with JavaScript
  falsiness (empty string and zero are falsy).
* `fetchVideoData` returns `Except FetchError VideoData`: `Except.error`
  models a rejected promise, `Except.ok` a resolved one.
-/

/-- Quality tier, from `export type Quality = '4k' | '1080p' | '720p' | '480p' | '360p' | 'audio'`
in `src/components/DownloadOptions.tsx` (re-exported next to `PlatformSelector`). -/
inductive Quality where
  | q4k
  | q1080p
  | q720p
  | q480p
  | q360p
  | audio
deriving DecidableEq

/-- The `VideoData` interface of `videoUtils.ts`: `author` is an optional field. -/
structure VideoData where
  title : String
  thumbnail : String
  duration : String
  fileSize : String
  author : Option String
  availableQualities : List Quality
deriving DecidableEq

/-- Decimal padding `s.padStart(2, '0')` of JavaScript, specialised to
target length 2 and pad character `'0'`. -/
def padStart2 (s : String) : String :=
  String.mk (List.replicate (2 - s.length) '0' ++ s.data)

/-- Embedding of `formatDuration` (lines 15-19): minutes by integer division,
seconds by remainder, seconds zero-padded to two digits.  The JavaScript
`Math.floor` calls are exact on the natural-number inputs modelled here. -/
def formatDuration (seconds : Nat) : String :=
  let minutes := seconds / 60
  let remainingSeconds := seconds % 60
  Nat.repr minutes ++ ":" ++ padStart2 (Nat.repr remainingSeconds)

/-- Models JavaScript `Math.round (a / b)` for natural `a` and positive `b`
(rounding half away from zero, which on naturals is half up). -/
def jsRoundDiv (a b : Nat) : Nat := (2 * a + b) / (2 * b)

/-- Models JavaScript `s.substring(0, n)`: the first `n` characters (clamped). -/
def jsSubstring (s : String) (n : Nat) : String := String.mk (s.data.take n)

/-- Models the JavaScript string idiom `o || d` where `o` may also be absent
(`undefined`): the default is taken when the value is missing or empty. -/
def jsOrStr (o : Option String) (d : String) : String :=
  match o with
  | none => d
  | some s => if s = "" then d else s

/-- Models the JavaScript numeric idiom `o || d` for a possibly-absent
non-negative integer: the default is taken when the value is missing or `0`. -/
def jsOrNat (o : Option Nat) (d : Nat) : Nat :=
  match o with
  | none => d
  | some n => if n = 0 then d else n

/-- Models JavaScript `s.replace(pat, rep)` with a plain-string pattern:
only the first occurrence of `pat` is replaced. -/
def replaceFirst (pat rep : List Char) : List Char → List Char
  | [] => if pat = [] then rep else []
  | c :: rest =>
    if pat.isPrefixOf (c :: rest) then rep ++ (c :: rest).drop pat.length
    else c :: replaceFirst pat rep rest

/-- Scan for `/(?:youtube\.com\/watch\?v=|youtu\.be\/)([^&]+)/` (line 37):
at each start position try the two literal alternatives in order; on a hit the
capture is the maximal non-empty run of characters other than `'&'`; an empty
capture fails the position and the scan moves one character right. -/
def ytScan : List Char → Option (List Char)
  | [] => none
  | c :: rest =>
    let l := c :: rest
    let tok1 := "youtube.com/watch?v=".data
    let tok2 := "youtu.be/".data
    if tok1.isPrefixOf l then
      let cap := (l.drop tok1.length).takeWhile (fun ch => ch != '&')
      if cap = [] then ytScan rest else some cap
    else if tok2.isPrefixOf l then
      let cap := (l.drop tok2.length).takeWhile (fun ch => ch != '&')
      if cap = [] then ytScan rest else some cap
    else ytScan rest

/-- Scan for `/instagram\.com\/(?:p|reel|tv)\/([^\/]+)/` (line 42): the three
alternatives `p`, `reel`, `tv` begin with distinct characters, so at each start
position at most one of the literals `instagram.com/p/`, `instagram.com/reel/`,
`instagram.com/tv/` can match; the capture is the maximal non-empty run of
characters other than `'/'`. -/
def igScan : List Char → Option (List Char)
  | [] => none
  | c :: rest =>
    let l := c :: rest
    let tokP := "instagram.com/p/".data
    let tokReel := "instagram.com/reel/".data
    let tokTv := "instagram.com/tv/".data
    if tokP.isPrefixOf l then
      let cap := (l.drop tokP.length).takeWhile (fun ch => ch != '/')
      if cap = [] then igScan rest else some cap
    else if tokReel.isPrefixOf l then
      let cap := (l.drop tokReel.length).takeWhile (fun ch => ch != '/')
      if cap = [] then igScan rest else some cap
    else if tokTv.isPrefixOf l then
      let cap := (l.drop tokTv.length).takeWhile (fun ch => ch != '/')
      if cap = [] then igScan rest else some cap
    else igScan rest

/-- Second alternative `v\/(\d+)` of the TikTok pattern, attempted at a fixed
start position: literal `tiktok.com/v/` followed by a non-empty digit run. -/
def ttAlt2 (l : List Char) : Option (List Char) :=
  let tokV := "tiktok.com/v/".data
  if tokV.isPrefixOf l then
    let cap := (l.drop tokV.length).takeWhile Char.isDigit
    if cap = [] then none else some cap
  else none

/-- Scan for `/tiktok\.com\/(?:@[^\/]+\/video\/|v\/)(\d+)/` (line 47): the
first alternative needs `tiktok.com/@`, then a non-empty run of non-`'/'`
characters (the greedy `[^\/]+` can stop only at the first `'/'`), then the
literal `/video/`, then a non-empty digit capture; if it fails, the second
alternative `v/` is tried at the same position before the scan advances. -/
def ttScan : List Char → Option (List Char)
  | [] => none
  | c :: rest =>
    let l := c :: rest
    let tokAt := "tiktok.com/@".data
    let tokVideo := "/video/".data
    let here :=
      if tokAt.isPrefixOf l then
        let afterAt := l.drop tokAt.length
        let user := afterAt.takeWhile (fun ch => ch != '/')
        if user = [] then ttAlt2 l
        else
          let rem := afterAt.drop user.length
          if tokVideo.isPrefixOf rem then
            let cap := (rem.drop tokVideo.length).takeWhile Char.isDigit
            if cap = [] then ttAlt2 l else some cap
          else ttAlt2 l
      else ttAlt2 l
    match here with
    | some cap => some cap
    | none => ttScan rest

/-- Embedding of `extractVideoId` (lines 31-53): switch on the platform tag,
run the platform's pattern, return the first capture (`match[1]`) or `null`;
the `default` branch returns `null` for any other platform value. -/
def extractVideoId (url platform : String) : Option String :=
  match platform with
  | "youtube" => (ytScan url.data).map List.asString
  | "instagram" => (igScan url.data).map List.asString
  | "tiktok" => (ttScan url.data).map List.asString
  | _ => none

/-- Parsed JSON payload of an ok oEmbed-style response; each field models an
optional string property of the JavaScript object. -/
structure OembedData where
  title : Option String
  thumbnail_url : Option String
  author_name : Option String
deriving DecidableEq

/-- Outcome of one `fetch` of an oEmbed-style endpoint: the call (or the
subsequent `.json()`) throws, or the response is not ok, or it is ok with a
parsed payload. -/
inductive OembedOutcome where
  | throws
  | notOk
  | ok (data : OembedData)
deriving DecidableEq

/-- Outcome of the Invidious details `fetch` inside the YouTube branch; an ok
response carries the optional `lengthSeconds` field of its payload. -/
inductive InvidOutcome where
  | throws
  | notOk
  | ok (lengthSeconds : Option Nat)
deriving DecidableEq

/-- Network oracle: the outcome of each network call `fetchVideoData` may
issue, one slot per call site. -/
structure NetworkEnv where
  ytOembed : OembedOutcome
  ytInvid : InvidOutcome
  igOembed : OembedOutcome
  ttOembed : OembedOutcome
deriving DecidableEq

/-- Errors observable from `fetchVideoData`: the `Invalid ${platform} URL format`
throw of line 60 and the `Failed to retrieve video information from ${platform}`
rethrow of the outer catch (line 196). -/
inductive FetchError where
  | invalidUrlFormat (platform : String)
  | failedRetrieve (platform : String)
deriving DecidableEq

/-- YouTube fallback record (lines 108-115), returned by the catch around the
oEmbed attempt. -/
def youtubeFallback (videoId : String) : VideoData :=
  { title := "YouTube Video (" ++ videoId ++ ")"
    thumbnail := "https://img.youtube.com/vi/" ++ videoId ++ "/maxresdefault.jpg"
    duration := formatDuration 180
    fileSize := "25 MB"
    author := some "YouTube Creator"
    availableQualities := [.q1080p, .q720p, .q480p, .q360p, .audio] }

/-- Instagram fallback record (lines 143-150). -/
def instagramFallback (videoId : String) : VideoData :=
  { title := "Instagram Post (" ++ videoId ++ ")"
    thumbnail := "https://source.unsplash.com/featured/1080x1080?instagram&sig=" ++ videoId
    duration := "0:30"
    fileSize := "15 MB"
    author := some ("@user_" ++ jsSubstring videoId 6)
    availableQualities := [.q1080p, .q720p, .q480p] }

/-- TikTok fallback record (lines 180-187). -/
def tiktokFallback (videoId : String) : VideoData :=
  { title := "TikTok Video (" ++ videoId ++ ")"
    thumbnail := "https://source.unsplash.com/featured/540x960?tiktok&sig=" ++ videoId
    duration := "0:15"
    fileSize := "5 MB"
    author := some ("@tiktok_" ++ jsSubstring videoId 6)
    availableQualities := [.q720p, .q480p, .q360p] }

/-- YouTube primary-path record (lines 93-100), parametrised by the oEmbed
payload and the duration/size numbers computed from the Invidious stage. -/
def youtubePrimary (data : OembedData) (videoId : String)
    (durationSecs estimatedSizeMB : Nat) : VideoData :=
  { title := jsOrStr data.title "YouTube Video"
    thumbnail :=
      jsOrStr (data.thumbnail_url.map fun s =>
          String.mk (replaceFirst "hqdefault".data "maxresdefault".data s.data))
        ("https://img.youtube.com/vi/" ++ videoId ++ "/maxresdefault.jpg")
    duration := formatDuration durationSecs
    fileSize := Nat.repr estimatedSizeMB ++ " MB"
    author := some (jsOrStr data.author_name "YouTube Creator")
    availableQualities := [.q1080p, .q720p, .q480p, .q360p, .audio] }

/-- YouTube branch of the switch (lines 67-117): oEmbed throw or non-ok falls
back; on ok, a throwing Invidious call is caught by the same catch and also
falls back, a non-ok Invidious response uses the inline estimates of lines
89-90, and an ok one uses `lengthSeconds || 0` and the 10 MB-per-minute
rounding of line 86. -/
def youtubeBranch (env : NetworkEnv) (videoId : String) : VideoData :=
  match env.ytOembed with
  | .throws => youtubeFallback videoId
  | .notOk => youtubeFallback videoId
  | .ok data =>
    match env.ytInvid with
    | .throws => youtubeFallback videoId
    | .notOk =>
      let durationSecs := 60 + videoId.length * 5
      let estimatedSizeMB := 15 + videoId.length * 2
      youtubePrimary data videoId durationSecs estimatedSizeMB
    | .ok lengthSeconds =>
      let durationSecs := jsOrNat lengthSeconds 0
      let estimatedSizeMB := jsRoundDiv (durationSecs * 10) 60
      youtubePrimary data videoId durationSecs estimatedSizeMB

/-- Instagram branch (lines 119-152): an ok oEmbed response builds the record
of lines 128-135; a throw or non-ok response falls back. -/
def instagramBranch (env : NetworkEnv) (videoId : String) : VideoData :=
  match env.igOembed with
  | .throws => instagramFallback videoId
  | .notOk => instagramFallback videoId
  | .ok data =>
    { title := jsOrStr data.title
        ("Instagram Post by " ++ jsOrStr data.author_name "User")
      thumbnail := jsOrStr data.thumbnail_url
        ("https://www.instagram.com/p/" ++ videoId ++ "/media/?size=l")
      duration := formatDuration 30
      fileSize := "15 MB"
      author := some (jsOrStr data.author_name ("@" ++ jsSubstring videoId 8))
      availableQualities := [.q1080p, .q720p, .q480p] }

/-- TikTok branch (lines 154-189): an ok oEmbed response builds the record of
lines 165-172; a throw or non-ok response falls back. -/
def tiktokBranch (env : NetworkEnv) (videoId : String) : VideoData :=
  match env.ttOembed with
  | .throws => tiktokFallback videoId
  | .notOk => tiktokFallback videoId
  | .ok data =>
    { title := jsOrStr data.title ("TikTok Video (" ++ videoId ++ ")")
      thumbnail := jsOrStr data.thumbnail_url
        ("https://source.unsplash.com/featured/540x960?tiktok&sig=" ++ videoId)
      duration := formatDuration 20
      fileSize := "8 MB"
      author := some (jsOrStr data.author_name ("@user_" ++ jsSubstring videoId 6))
      availableQualities := [.q720p, .q480p, .q360p] }

/-- Body of the outer `try` of `fetchVideoData` (lines 65-193): the switch over
the platform tag; each platform case absorbs its own failures and returns a
record, while the `default` case throws `Unsupported platform: ...`, here an
`Except.error` carrying that message. -/
def fetchVideoDataInner (env : NetworkEnv) (videoId platform : String) :
    Except String VideoData :=
  match platform with
  | "youtube" => .ok (youtubeBranch env videoId)
  | "instagram" => .ok (instagramBranch env videoId)
  | "tiktok" => .ok (tiktokBranch env videoId)
  | _ => .error ("Unsupported platform: " ++ platform)

/-- Embedding of `fetchVideoData` (lines 56-198): extract the identifier and
throw `Invalid ${platform} URL format` when it is `null`; otherwise run the
platform switch, rethrowing anything escaping it as
`Failed to retrieve video information from ${platform}`. -/
def fetchVideoData (env : NetworkEnv) (url platform : String) :
    Except FetchError VideoData :=
  match extractVideoId url platform with
  | none => .error (.invalidUrlFormat platform)
  | some videoId =>
    match fetchVideoDataInner env videoId platform with
    | .ok v => .ok v
    | .error _ => .error (.failedRetrieve platform)

/-- The duration shape required by the spec pattern `^\d+:\d{2}$`: a non-empty
maximal digit run, a colon, exactly two digits, end of string. -/
def durCheck : List Char → Bool := fun l =>
  match l.takeWhile Char.isDigit, l.dropWhile Char.isDigit with
  | _ :: _, [':', a, b] => a.isDigit && b.isDigit
  | _, _ => false

/-- A string matches the spec pattern `^\d+:\d{2}$`. -/
def matchesDurationPattern (s : String) : Bool := durCheck s.data

/-- The numeric seed the spec describes for the fallback generator: the sum of
the character codes of the identifier.  Modelled from the spec wording; the
source has no such computation, and the definition exists to state that. -/
def claimedSeed (s : String) : Nat := (s.data.map Char.toNat).sum

/-- Contiguous-substring relation on character lists: `a` occurs verbatim
inside `b`. -/
def SubstringOf (a b : List Char) : Prop := ∃ pre suf, b = pre ++ a ++ suf

theorem substringOf_trans {a b c : List Char} (h1 : SubstringOf a b)
    (h2 : SubstringOf b c) : SubstringOf a c := by
  obtain ⟨p1, s1, rfl⟩ := h1
  obtain ⟨p2, s2, rfl⟩ := h2
  exact ⟨p2 ++ p1, s1 ++ s2, by simp⟩

theorem substringOf_drop (n : Nat) (l : List Char) : SubstringOf (l.drop n) l :=
  ⟨l.take n, [], by simp⟩

theorem substringOf_takeWhile (p : Char → Bool) (l : List Char) :
    SubstringOf (l.takeWhile p) l :=
  ⟨[], l.dropWhile p, by simp [List.takeWhile_append_dropWhile]⟩

theorem substringOf_cons {a rest : List Char} (c : Char)
    (h : SubstringOf a rest) : SubstringOf a (c :: rest) := by
  obtain ⟨p, s, rfl⟩ := h
  exact ⟨c :: p, s, rfl⟩

theorem substringOf_takeWhile_drop (p : Char → Bool) (n : Nat) (l : List Char) :
    SubstringOf ((l.drop n).takeWhile p) l :=
  substringOf_trans (substringOf_takeWhile p _) (substringOf_drop n l)

theorem isPrefixOf_self_append (l t : List Char) : l.isPrefixOf (l ++ t) = true := by
  induction l with
  | nil => simp
  | cons a as ih => simp [List.isPrefixOf, ih]

theorem ytScan_substring : ∀ l cap, ytScan l = some cap → SubstringOf cap l := by
  intro l
  induction l with
  | nil => intro cap h; simp [ytScan] at h
  | cons c rest ih =>
    intro cap h
    simp only [ytScan] at h
    split_ifs at h with h1 h2 h3 h4
    · exact substringOf_cons c (ih cap h)
    · cases h; exact substringOf_takeWhile_drop _ _ _
    · exact substringOf_cons c (ih cap h)
    · cases h; exact substringOf_takeWhile_drop _ _ _
    · exact substringOf_cons c (ih cap h)

theorem igScan_substring : ∀ l cap, igScan l = some cap → SubstringOf cap l := by
  intro l
  induction l with
  | nil => intro cap h; simp [igScan] at h
  | cons c rest ih =>
    intro cap h
    simp only [igScan] at h
    split_ifs at h with h1 h2 h3 h4 h5 h6
    · exact substringOf_cons c (ih cap h)
    · cases h; exact substringOf_takeWhile_drop _ _ _
    · exact substringOf_cons c (ih cap h)
    · cases h; exact substringOf_takeWhile_drop _ _ _
    · exact substringOf_cons c (ih cap h)
    · cases h; exact substringOf_takeWhile_drop _ _ _
    · exact substringOf_cons c (ih cap h)

theorem ttAlt2_spec (l cap : List Char) (h : ttAlt2 l = some cap) :
    cap ≠ [] ∧ (∀ c ∈ cap, c.isDigit = true) ∧ SubstringOf cap l := by
  simp only [ttAlt2] at h
  split_ifs at h with h1 h2
  all_goals
    first
      | exact Option.noConfusion h
      | (obtain rfl := Option.some.inj h
         exact ⟨by assumption, fun c hc => List.mem_takeWhile_imp hc,
           substringOf_takeWhile_drop _ _ _⟩)

theorem ttScan_spec : ∀ l cap, ttScan l = some cap →
    cap ≠ [] ∧ (∀ c ∈ cap, c.isDigit = true) ∧ SubstringOf cap l := by
  intro l
  induction l with
  | nil => intro cap h; simp [ttScan] at h
  | cons c rest ih =>
    intro cap h
    simp only [ttScan] at h
    split at h
    case _ cap' hh =>
      cases h
      split_ifs at hh with h1 h2 h3 h4
      all_goals
        first
          | exact ttAlt2_spec _ _ hh
          | (obtain rfl := Option.some.inj hh
             refine ⟨by assumption, fun ch hc => List.mem_takeWhile_imp hc, ?_⟩
             refine substringOf_trans (substringOf_takeWhile_drop _ _ _) ?_
             exact substringOf_trans (substringOf_drop _ _) (substringOf_drop _ _))
    case _ hh =>
      obtain ⟨hne, hdig, hsub⟩ := ih cap h
      exact ⟨hne, hdig, substringOf_cons c hsub⟩

theorem asString_data (l : List Char) : (List.asString l).data = l := rfl

theorem digitChar_isDigit : ∀ m < 10, (Nat.digitChar m).isDigit = true := by decide

theorem toDigitsCore_all_digits :
    ∀ (f n : Nat) (acc : List Char), (∀ c ∈ acc, c.isDigit = true) →
      ∀ c ∈ Nat.toDigitsCore 10 f n acc, c.isDigit = true := by
  intro f
  induction f with
  | zero => intro n acc hacc; simpa [Nat.toDigitsCore] using hacc
  | succ f ih =>
    intro n acc hacc
    have hd : (Nat.digitChar (n % 10)).isDigit = true :=
      digitChar_isDigit _ (Nat.mod_lt _ (by decide))
    have hacc' : ∀ c ∈ Nat.digitChar (n % 10) :: acc, c.isDigit = true := by
      intro c hc
      rcases List.mem_cons.mp hc with rfl | hc
      · exact hd
      · exact hacc c hc
    simp only [Nat.toDigitsCore]
    split
    · exact hacc'
    · exact ih _ _ hacc'

theorem toDigitsCore_length_mono :
    ∀ (f n : Nat) (acc : List Char),
      acc.length ≤ (Nat.toDigitsCore 10 f n acc).length := by
  intro f
  induction f with
  | zero => intro n acc; simp [Nat.toDigitsCore]
  | succ f ih =>
    intro n acc
    simp only [Nat.toDigitsCore]
    split
    · simp
    · exact le_trans (by simp) (ih (n / 10) (Nat.digitChar (n % 10) :: acc))

theorem repr_data_all_digits (n : Nat) :
    ∀ c ∈ (Nat.repr n).data, c.isDigit = true := by
  intro c hc
  rw [Nat.repr, Nat.toDigits, asString_data] at hc
  exact toDigitsCore_all_digits _ _ _ (by simp) c hc

theorem repr_data_ne_nil (n : Nat) : (Nat.repr n).data ≠ [] := by
  rw [Nat.repr, Nat.toDigits, asString_data]
  simp only [Nat.toDigitsCore]
  split
  · simp
  · intro hnil
    have := toDigitsCore_length_mono n (n / 10) [Nat.digitChar (n % 10)]
    rw [hnil] at this
    simp at this

theorem takeWhile_digits_colon :
    ∀ (xs t : List Char), (∀ c ∈ xs, c.isDigit = true) →
      (xs ++ ':' :: t).takeWhile Char.isDigit = xs ∧
        (xs ++ ':' :: t).dropWhile Char.isDigit = ':' :: t := by
  intro xs t hxs
  induction xs with
  | nil => simp [List.takeWhile_cons, List.dropWhile_cons]
  | cons x xs ih =>
    have hx : x.isDigit = true := hxs x (by simp)
    have ihx := ih (fun c hc => hxs c (by simp [hc]))
    simp [List.takeWhile_cons, List.dropWhile_cons, hx, ihx.1, ihx.2]

theorem durCheck_shape (ds : List Char) (a b : Char) (h1 : ds ≠ [])
    (h2 : ∀ c ∈ ds, c.isDigit = true) (ha : a.isDigit = true)
    (hb : b.isDigit = true) : durCheck (ds ++ ':' :: [a, b]) = true := by
  obtain ⟨tw, dw⟩ := takeWhile_digits_colon ds [a, b] h2
  unfold durCheck
  rw [tw, dw]
  cases ds with
  | nil => exact absurd rfl h1
  | cons d ds' => simp [ha, hb]

/-- Boolean check that the two-digit padding of `Nat.repr r` yields exactly two
digit characters, used for a bounded enumeration over `r < 60`. -/
def pad2Check (r : Nat) : Bool :=
  match (padStart2 (Nat.repr r)).data with
  | [a, b] => a.isDigit && b.isDigit
  | _ => false

theorem pad2Check_lt60 : ∀ r < 60, pad2Check r = true := by decide

theorem pad2Check_spec (r : Nat) (h : pad2Check r = true) :
    ∃ a b, (padStart2 (Nat.repr r)).data = [a, b] ∧
      a.isDigit = true ∧ b.isDigit = true := by
  unfold pad2Check at h
  rcases hd : (padStart2 (Nat.repr r)).data with _ | ⟨a, _ | ⟨b, _ | ⟨c, t⟩⟩⟩
  all_goals rw [hd] at h
  · exact Bool.noConfusion h
  · exact Bool.noConfusion h
  · simp only [Bool.and_eq_true] at h
    exact ⟨a, b, rfl, h.1, h.2⟩
  · exact Bool.noConfusion h

theorem formatDuration_data (n : Nat) : (formatDuration n).data =
    (Nat.repr (n / 60)).data ++ ':' :: (padStart2 (Nat.repr (n % 60))).data := by
  show (Nat.repr (n / 60) ++ ":" ++ padStart2 (Nat.repr (n % 60))).data = _
  rw [String.data_append, String.data_append]
  simp

theorem formatDuration_matches (n : Nat) :
    matchesDurationPattern (formatDuration n) = true := by
  obtain ⟨a, b, hab, ha, hb⟩ :=
    pad2Check_spec (n % 60) (pad2Check_lt60 _ (Nat.mod_lt _ (by decide)))
  unfold matchesDurationPattern
  rw [formatDuration_data, hab]
  exact durCheck_shape _ a b (repr_data_ne_nil _) (repr_data_all_digits _) ha hb

theorem ytScan_cons_ne_y (c : Char) (rest : List Char) (h : ('y' == c) = false) :
    ytScan (c :: rest) = ytScan rest := by
  have h1 : ("youtube.com/watch?v=".data).isPrefixOf (c :: rest) = false := by
    rw [show "youtube.com/watch?v=".data = 'y' :: "outube.com/watch?v=".data from rfl]
    simp [List.isPrefixOf, h]
  have h2 : ("youtu.be/".data).isPrefixOf (c :: rest) = false := by
    rw [show "youtu.be/".data = 'y' :: "outu.be/".data from rfl]
    simp [List.isPrefixOf, h]
  simp [ytScan, h1, h2]

theorem ytScan_append_skip (pre : List Char) (hpre : ∀ c ∈ pre, ('y' == c) = false)
    (suf : List Char) : ytScan (pre ++ suf) = ytScan suf := by
  induction pre with
  | nil => rfl
  | cons c cs ih =>
    rw [List.cons_append, ytScan_cons_ne_y c _ (hpre c (by simp))]
    exact ih fun d hd => hpre d (by simp [hd])

theorem ytScan_match_short (v : List Char)
    (hv : v.takeWhile (fun ch => ch != '&') ≠ []) :
    ytScan ("youtu.be/".data ++ v) = some (v.takeWhile (fun ch => ch != '&')) := by
  rw [show "youtu.be/".data ++ v = 'y' :: ("outu.be/".data ++ v) from rfl]
  have e1 : ("youtube.com/watch?v=".data).isPrefixOf ('y' :: ("outu.be/".data ++ v)) = false := rfl
  have e2 : ("youtu.be/".data).isPrefixOf ('y' :: ("outu.be/".data ++ v)) = true :=
    isPrefixOf_self_append "youtu.be/".data v
  have e3 : ('y' :: ("outu.be/".data ++ v)).drop ("youtu.be/".data.length) = v := rfl
  simp only [ytScan, e1, e2, e3]
  simp [hv]

theorem ytScan_match_long (v : List Char)
    (hv : v.takeWhile (fun ch => ch != '&') ≠ []) :
    ytScan ("youtube.com/watch?v=".data ++ v) = some (v.takeWhile (fun ch => ch != '&')) := by
  rw [show "youtube.com/watch?v=".data ++ v = 'y' :: ("outube.com/watch?v=".data ++ v) from rfl]
  have e1 : ("youtube.com/watch?v=".data).isPrefixOf
      ('y' :: ("outube.com/watch?v=".data ++ v)) = true :=
    isPrefixOf_self_append "youtube.com/watch?v=".data v
  have e3 : ('y' :: ("outube.com/watch?v=".data ++ v)).drop
      ("youtube.com/watch?v=".data.length) = v := rfl
  simp only [ytScan, e1, e3]
  simp [hv]

theorem ytScan_youtu_be_url (v : List Char)
    (hv : v.takeWhile (fun ch => ch != '&') ≠ []) :
    ytScan ("https://youtu.be/".data ++ v) = some (v.takeWhile (fun ch => ch != '&')) := by
  rw [show "https://youtu.be/".data ++ v = "https://".data ++ ("youtu.be/".data ++ v) from rfl,
    ytScan_append_skip "https://".data (by decide) _]
  exact ytScan_match_short v hv

theorem ytScan_watch_url (v : List Char)
    (hv : v.takeWhile (fun ch => ch != '&') ≠ []) :
    ytScan ("https://www.youtube.com/watch?v=".data ++ v)
      = some (v.takeWhile (fun ch => ch != '&')) := by
  rw [show "https://www.youtube.com/watch?v=".data ++ v
        = "https://www.".data ++ ("youtube.com/watch?v=".data ++ v) from rfl,
    ytScan_append_skip "https://www.".data (by decide) _]
  exact ytScan_match_long v hv

/-- The primary network source of the platform fails: the platform's oEmbed
call throws or returns a non-ok response, which is exactly the situation in
which `fetchVideoData` takes the fallback branch of the platform (for the
YouTube branch, the Invidious stage is only reached when the oEmbed call
succeeded, so it is not part of this predicate). -/
def primaryFails (env : NetworkEnv) (platform : String) : Bool :=
  match platform with
  | "youtube" => (match env.ytOembed with | .ok _ => false | _ => true)
  | "instagram" => (match env.igOembed with | .ok _ => false | _ => true)
  | "tiktok" => (match env.ttOembed with | .ok _ => false | _ => true)
  | _ => false

/-- The fixed quality list of each platform, as it appears (identically on the
primary and fallback paths) in the source. -/
def platformQualities (platform : String) : List Quality :=
  match platform with
  | "youtube" => [.q1080p, .q720p, .q480p, .q360p, .audio]
  | "instagram" => [.q1080p, .q720p, .q480p]
  | "tiktok" => [.q720p, .q480p, .q360p]
  | _ => []

/-- Concrete oracle in which every network call fails by throwing, simulating
an unreachable network. -/
def envAllFail : NetworkEnv :=
  { ytOembed := .throws, ytInvid := .throws, igOembed := .throws, ttOembed := .throws }

theorem youtubeBranch_fail (env : NetworkEnv) (vid : String)
    (h : primaryFails env "youtube" = true) :
    youtubeBranch env vid = youtubeFallback vid := by
  cases henv : env.ytOembed <;> simp_all [primaryFails, youtubeBranch]

theorem instagramBranch_fail (env : NetworkEnv) (vid : String)
    (h : primaryFails env "instagram" = true) :
    instagramBranch env vid = instagramFallback vid := by
  cases henv : env.igOembed <;> simp_all [primaryFails, instagramBranch]

theorem tiktokBranch_fail (env : NetworkEnv) (vid : String)
    (h : primaryFails env "tiktok" = true) :
    tiktokBranch env vid = tiktokFallback vid := by
  cases henv : env.ttOembed <;> simp_all [primaryFails, tiktokBranch]

theorem youtubeBranch_qualities (env : NetworkEnv) (vid : String) :
    (youtubeBranch env vid).availableQualities
      = [.q1080p, .q720p, .q480p, .q360p, .audio] := by
  cases henv : env.ytOembed <;> cases hinv : env.ytInvid <;>
    simp [youtubeBranch, henv, hinv, youtubeFallback, youtubePrimary]

theorem instagramBranch_qualities (env : NetworkEnv) (vid : String) :
    (instagramBranch env vid).availableQualities = [.q1080p, .q720p, .q480p] := by
  cases henv : env.igOembed <;> simp [instagramBranch, henv, instagramFallback]

theorem tiktokBranch_qualities (env : NetworkEnv) (vid : String) :
    (tiktokBranch env vid).availableQualities = [.q720p, .q480p, .q360p] := by
  cases henv : env.ttOembed <;> simp [tiktokBranch, henv, tiktokFallback]

theorem youtubeBranch_duration (env : NetworkEnv) (vid : String) :
    matchesDurationPattern (youtubeBranch env vid).duration = true := by
  cases henv : env.ytOembed <;> cases hinv : env.ytInvid <;>
    simp [youtubeBranch, henv, hinv, youtubeFallback, youtubePrimary,
      formatDuration_matches]

theorem instagramBranch_duration (env : NetworkEnv) (vid : String) :
    matchesDurationPattern (instagramBranch env vid).duration = true := by
  cases henv : env.igOembed <;>
    simp [instagramBranch, henv, instagramFallback, formatDuration_matches]
  all_goals decide

theorem tiktokBranch_duration (env : NetworkEnv) (vid : String) :
    matchesDurationPattern (tiktokBranch env vid).duration = true := by
  cases henv : env.ttOembed <;>
    simp [tiktokBranch, henv, tiktokFallback, formatDuration_matches]
  all_goals decide

theorem fetchVideoData_ok_inv (env : NetworkEnv) (url platform : String)
    (r : VideoData) (h : fetchVideoData env url platform = .ok r) :
    ∃ vid, extractVideoId url platform = some vid ∧
      ((platform = "youtube" ∧ r = youtubeBranch env vid) ∨
       (platform = "instagram" ∧ r = instagramBranch env vid) ∨
       (platform = "tiktok" ∧ r = tiktokBranch env vid)) := by
  unfold fetchVideoData at h
  split at h
  · exact Except.noConfusion h
  case _ vid hvid =>
    split at h
    case _ v hinner =>
      cases h
      unfold fetchVideoDataInner at hinner
      split at hinner
      · exact ⟨vid, hvid, Or.inl ⟨rfl, (Except.ok.inj hinner).symm⟩⟩
      · exact ⟨vid, hvid, Or.inr (Or.inl ⟨rfl, (Except.ok.inj hinner).symm⟩)⟩
      · exact ⟨vid, hvid, Or.inr (Or.inr ⟨rfl, (Except.ok.inj hinner).symm⟩)⟩
      · exact Except.noConfusion hinner
    case _ hinner =>
      exact Except.noConfusion h

/-- Concrete oracle in which every network call returns a non-ok response. -/
def envAllNotOk : NetworkEnv :=
  { ytOembed := .notOk, ytInvid := .notOk, igOembed := .notOk, ttOembed := .notOk }

/-- C1 (fallback determinism): for every identifier and every platform of the
closed enumeration, two invocations of the resolver in which the primary
network source fails produce the same `VideoData` record — the result of the
fallback branch does not depend on anything but the identifier and the
platform, so both invocations return one and the same record (hence identical
title, thumbnail, duration, fileSize, author, and availableQualities). -/
theorem C1_fallback_determinism (url platform vid : String) (env env' : NetworkEnv)
    (hp : platform = "youtube" ∨ platform = "instagram" ∨ platform = "tiktok")
    (hvid : extractVideoId url platform = some vid)
    (h1 : primaryFails env platform = true) (h2 : primaryFails env' platform = true) :
    ∃ r, fetchVideoData env url platform = Except.ok r ∧
      fetchVideoData env' url platform = Except.ok r := by
  rcases hp with rfl | rfl | rfl
  · exact ⟨youtubeFallback vid,
      by simp [fetchVideoData, hvid, fetchVideoDataInner, youtubeBranch_fail env vid h1],
      by simp [fetchVideoData, hvid, fetchVideoDataInner, youtubeBranch_fail env' vid h2]⟩
  · exact ⟨instagramFallback vid,
      by simp [fetchVideoData, hvid, fetchVideoDataInner, instagramBranch_fail env vid h1],
      by simp [fetchVideoData, hvid, fetchVideoDataInner, instagramBranch_fail env' vid h2]⟩
  · exact ⟨tiktokFallback vid,
      by simp [fetchVideoData, hvid, fetchVideoDataInner, tiktokBranch_fail env vid h1],
      by simp [fetchVideoData, hvid, fetchVideoDataInner, tiktokBranch_fail env' vid h2]⟩

/-- Witness for C1 at a concrete input: two different failing oracles yield the
same record for the same URL and platform. -/
theorem C1_fallback_determinism_witness :
    ∃ r, fetchVideoData envAllFail "https://youtu.be/abc" "youtube" = Except.ok r ∧
      fetchVideoData envAllNotOk "https://youtu.be/abc" "youtube" = Except.ok r :=
  C1_fallback_determinism "https://youtu.be/abc" "youtube" "abc" envAllFail envAllNotOk
    (Or.inl rfl) (by decide) (by decide) (by decide)

/-- C2 (counterexample): the fallback is not the seed-driven construction the
claim describes.  The identifiers `"ab"` and `"ba"` have the same
character-code sum (the claimed seed), yet the YouTube fallback gives them
different titles, so the title is not selected from a fixed candidate list by
modulo arithmetic on that seed; and the YouTube fallback author is the fixed
string `"YouTube Creator"`, which does not begin with `'@'`, so the author is
not `'@'` followed by a prefix of the identifier. -/
theorem C2_fallback_construction_counterexample :
    claimedSeed "ab" = claimedSeed "ba" ∧
    (youtubeFallback "ab").title ≠ (youtubeFallback "ba").title ∧
    (youtubeFallback "dQw4w9WgXcQ").author = some "YouTube Creator" ∧
    ((youtubeFallback "dQw4w9WgXcQ").author.map fun a => a.data.head?)
      = some (some 'Y') :=
  ⟨by decide, by decide, by decide, by decide⟩

/-- C2 (amended): the fallback is a deterministic function of the identifier
and platform, but involves no character-code seed and no candidate-title list:
the title is a fixed platform template embedding the identifier, the duration
and file-size labels are fixed platform constants (3:00 and 25 MB for YouTube,
0:30 and 15 MB for Instagram, 0:15 and 5 MB for TikTok), the thumbnail URL is
a fixed template embedding the identifier, and the author is the fixed string
`YouTube Creator` for YouTube and `@user_` / `@tiktok_` followed by the first
six characters of the identifier for Instagram / TikTok. -/
theorem C2_fallback_construction_amended (url platform vid : String)
    (env : NetworkEnv)
    (hp : platform = "youtube" ∨ platform = "instagram" ∨ platform = "tiktok")
    (hvid : extractVideoId url platform = some vid)
    (hfail : primaryFails env platform = true) :
    ∃ r, fetchVideoData env url platform = Except.ok r ∧
      (platform = "youtube" →
        r.title = "YouTube Video (" ++ vid ++ ")" ∧
        r.thumbnail = "https://img.youtube.com/vi/" ++ vid ++ "/maxresdefault.jpg" ∧
        r.duration = "3:00" ∧ r.fileSize = "25 MB" ∧
        r.author = some "YouTube Creator") ∧
      (platform = "instagram" →
        r.title = "Instagram Post (" ++ vid ++ ")" ∧
        r.thumbnail = "https://source.unsplash.com/featured/1080x1080?instagram&sig=" ++ vid ∧
        r.duration = "0:30" ∧ r.fileSize = "15 MB" ∧
        r.author = some ("@user_" ++ jsSubstring vid 6)) ∧
      (platform = "tiktok" →
        r.title = "TikTok Video (" ++ vid ++ ")" ∧
        r.thumbnail = "https://source.unsplash.com/featured/540x960?tiktok&sig=" ++ vid ∧
        r.duration = "0:15" ∧ r.fileSize = "5 MB" ∧
        r.author = some ("@tiktok_" ++ jsSubstring vid 6)) := by
  rcases hp with rfl | rfl | rfl
  · refine ⟨youtubeFallback vid,
      by simp [fetchVideoData, hvid, fetchVideoDataInner, youtubeBranch_fail env vid hfail],
      fun _ => ⟨rfl, rfl, show formatDuration 180 = "3:00" by decide, rfl, rfl⟩,
      fun hpl => absurd hpl (by decide), fun hpl => absurd hpl (by decide)⟩
  · refine ⟨instagramFallback vid,
      by simp [fetchVideoData, hvid, fetchVideoDataInner, instagramBranch_fail env vid hfail],
      fun hpl => absurd hpl (by decide),
      fun _ => ⟨rfl, rfl, rfl, rfl, rfl⟩,
      fun hpl => absurd hpl (by decide)⟩
  · refine ⟨tiktokFallback vid,
      by simp [fetchVideoData, hvid, fetchVideoDataInner, tiktokBranch_fail env vid hfail],
      fun hpl => absurd hpl (by decide),
      fun hpl => absurd hpl (by decide),
      fun _ => ⟨rfl, rfl, rfl, rfl, rfl⟩⟩

/-- Witness for the amended C2 at a concrete input. -/
theorem C2_fallback_construction_amended_witness :
    ∃ r, fetchVideoData envAllFail "https://www.instagram.com/p/CODE123/" "instagram"
        = Except.ok r ∧
      ("instagram" = "youtube" →
        r.title = "YouTube Video (" ++ "CODE123" ++ ")" ∧
        r.thumbnail = "https://img.youtube.com/vi/" ++ "CODE123" ++ "/maxresdefault.jpg" ∧
        r.duration = "3:00" ∧ r.fileSize = "25 MB" ∧
        r.author = some "YouTube Creator") ∧
      ("instagram" = "instagram" →
        r.title = "Instagram Post (" ++ "CODE123" ++ ")" ∧
        r.thumbnail = "https://source.unsplash.com/featured/1080x1080?instagram&sig="
          ++ "CODE123" ∧
        r.duration = "0:30" ∧ r.fileSize = "15 MB" ∧
        r.author = some ("@user_" ++ jsSubstring "CODE123" 6)) ∧
      ("instagram" = "tiktok" →
        r.title = "TikTok Video (" ++ "CODE123" ++ ")" ∧
        r.thumbnail = "https://source.unsplash.com/featured/540x960?tiktok&sig="
          ++ "CODE123" ∧
        r.duration = "0:15" ∧ r.fileSize = "5 MB" ∧
        r.author = some ("@tiktok_" ++ jsSubstring "CODE123" 6)) :=
  C2_fallback_construction_amended "https://www.instagram.com/p/CODE123/" "instagram"
    "CODE123" envAllFail (Or.inr (Or.inl rfl)) (by decide) (by decide)

/-- C3 (resolver never rejects): for every platform of the closed enumeration
and every URL from which an identifier is extracted, `fetchVideoData` returns
`Except.ok` for every network oracle — every combination of throwing calls,
non-ok responses and payloads with missing fields ends in a valid record. -/
theorem C3_never_rejects (env : NetworkEnv) (url platform vid : String)
    (hp : platform = "youtube" ∨ platform = "instagram" ∨ platform = "tiktok")
    (hvid : extractVideoId url platform = some vid) :
    ∃ r, fetchVideoData env url platform = Except.ok r := by
  rcases hp with rfl | rfl | rfl
  · exact ⟨youtubeBranch env vid, by simp [fetchVideoData, hvid, fetchVideoDataInner]⟩
  · exact ⟨instagramBranch env vid, by simp [fetchVideoData, hvid, fetchVideoDataInner]⟩
  · exact ⟨tiktokBranch env vid, by simp [fetchVideoData, hvid, fetchVideoDataInner]⟩

/-- Witness for C3 at a concrete input with an all-throwing oracle. -/
theorem C3_never_rejects_witness :
    ∃ r, fetchVideoData envAllFail "https://www.tiktok.com/v/42" "tiktok" = Except.ok r :=
  C3_never_rejects envAllFail "https://www.tiktok.com/v/42" "tiktok" "42"
    (Or.inr (Or.inr rfl)) (by decide)

/-- C4 (quality-list invariant): every record returned by `fetchVideoData`
carries exactly the platform's fixed quality list, which is non-empty; for
YouTube it is the platform's full fixed five-tier list
(1080p, 720p, 480p, 360p, audio), and for Instagram and TikTok it is the
respective reduced three-tier list. -/
theorem C4_quality_invariant (env : NetworkEnv) (url platform : String)
    (r : VideoData) (h : fetchVideoData env url platform = Except.ok r) :
    r.availableQualities = platformQualities platform ∧
    r.availableQualities ≠ [] ∧
    (platform = "youtube" →
      r.availableQualities = [.q1080p, .q720p, .q480p, .q360p, .audio]) ∧
    (platform = "instagram" → r.availableQualities = [.q1080p, .q720p, .q480p]) ∧
    (platform = "tiktok" → r.availableQualities = [.q720p, .q480p, .q360p]) := by
  obtain ⟨vid, hvid, hcase⟩ := fetchVideoData_ok_inv env url platform r h
  rcases hcase with ⟨rfl, rfl⟩ | ⟨rfl, rfl⟩ | ⟨rfl, rfl⟩
  · refine ⟨by simp [youtubeBranch_qualities, platformQualities],
      by simp [youtubeBranch_qualities], fun _ => youtubeBranch_qualities env vid,
      fun hpl => absurd hpl (by decide), fun hpl => absurd hpl (by decide)⟩
  · refine ⟨by simp [instagramBranch_qualities, platformQualities],
      by simp [instagramBranch_qualities], fun hpl => absurd hpl (by decide),
      fun _ => instagramBranch_qualities env vid, fun hpl => absurd hpl (by decide)⟩
  · refine ⟨by simp [tiktokBranch_qualities, platformQualities],
      by simp [tiktokBranch_qualities], fun hpl => absurd hpl (by decide),
      fun hpl => absurd hpl (by decide), fun _ => tiktokBranch_qualities env vid⟩

/-- Witness for C4 at a concrete successful resolution. -/
theorem C4_quality_invariant_witness :
    (youtubeFallback "abc").availableQualities = platformQualities "youtube" ∧
    (youtubeFallback "abc").availableQualities ≠ [] ∧
    ("youtube" = "youtube" → (youtubeFallback "abc").availableQualities
      = [.q1080p, .q720p, .q480p, .q360p, .audio]) ∧
    ("youtube" = "instagram" → (youtubeFallback "abc").availableQualities
      = [.q1080p, .q720p, .q480p]) ∧
    ("youtube" = "tiktok" → (youtubeFallback "abc").availableQualities
      = [.q720p, .q480p, .q360p]) :=
  C4_quality_invariant envAllFail "https://youtu.be/abc" "youtube"
    (youtubeFallback "abc") (by rfl)

/-- C5 (YouTube scenario): extraction on `https://youtu.be/dQw4w9WgXcQ` yields
exactly `dQw4w9WgXcQ`, and whenever the primary source is unreachable (its
call throws or answers non-ok) the resolver still returns a record with a
non-empty title, a thumbnail URL containing `dQw4w9WgXcQ` as a substring, and
the platform's full fixed quality list. -/
theorem C5_youtube_scenario :
    extractVideoId "https://youtu.be/dQw4w9WgXcQ" "youtube" = some "dQw4w9WgXcQ" ∧
    ∀ env : NetworkEnv, primaryFails env "youtube" = true →
      ∃ r, fetchVideoData env "https://youtu.be/dQw4w9WgXcQ" "youtube" = Except.ok r ∧
        r.title ≠ "" ∧
        SubstringOf "dQw4w9WgXcQ".data r.thumbnail.data ∧
        r.availableQualities = [.q1080p, .q720p, .q480p, .q360p, .audio] := by
  refine ⟨by decide, fun env hfail =>
    ⟨youtubeFallback "dQw4w9WgXcQ", ?_, by decide, ?_, by decide⟩⟩
  · simp [fetchVideoData, fetchVideoDataInner, youtubeBranch_fail env _ hfail,
      show extractVideoId "https://youtu.be/dQw4w9WgXcQ" "youtube" = some "dQw4w9WgXcQ"
        from by decide]
  · exact ⟨"https://img.youtube.com/vi/".data, "/maxresdefault.jpg".data, by decide⟩

/-- Witness for C5 with the all-throwing oracle. -/
theorem C5_youtube_scenario_witness :
    ∃ r, fetchVideoData envAllFail "https://youtu.be/dQw4w9WgXcQ" "youtube"
        = Except.ok r ∧ r.title ≠ "" ∧
      SubstringOf "dQw4w9WgXcQ".data r.thumbnail.data ∧
      r.availableQualities = [.q1080p, .q720p, .q480p, .q360p, .audio] :=
  C5_youtube_scenario.2 envAllFail (by decide)

/-- C6 (counterexample): extraction is not case-insensitive on scheme/host
tokens — the upper-cased host `YOUTUBE.COM` is rejected while the lower-case
form of the same URL is accepted, because the source patterns carry no
case-insensitivity flag. -/
theorem C6_case_handling_counterexample :
    extractVideoId "https://YOUTUBE.COM/watch?v=x" "youtube" = none ∧
    extractVideoId "https://youtube.com/watch?v=x" "youtube" = some "x" :=
  ⟨by decide, by decide⟩

/-- C6 (amended): extraction is a pure function of its two arguments that
matches the scheme/host tokens case-sensitively (an upper-cased host is not
recognized), and any identifier it returns is a verbatim contiguous substring
of the URL, its case preserved exactly. -/
theorem C6_case_handling_amended :
    (∀ url platform id, extractVideoId url platform = some id →
        SubstringOf id.data url.data) ∧
    extractVideoId "https://youtube.com/watch?v=AbC" "youtube" = some "AbC" ∧
    extractVideoId "https://YOUTUBE.COM/watch?v=AbC" "youtube" = none := by
  refine ⟨?_, by decide, by decide⟩
  intro url platform id h
  unfold extractVideoId at h
  split at h
  · obtain ⟨cap, hcap, rfl⟩ := Option.map_eq_some'.mp h
    rw [asString_data]
    exact ytScan_substring _ _ hcap
  · obtain ⟨cap, hcap, rfl⟩ := Option.map_eq_some'.mp h
    rw [asString_data]
    exact igScan_substring _ _ hcap
  · obtain ⟨cap, hcap, rfl⟩ := Option.map_eq_some'.mp h
    rw [asString_data]
    exact (ttScan_spec _ _ hcap).2.2
  · exact Option.noConfusion h

/-- Witness for the amended C6: a concrete extraction whose identifier occurs
verbatim inside the URL. -/
theorem C6_case_handling_amended_witness :
    SubstringOf ("AbC" : String).data ("https://youtube.com/watch?v=AbC" : String).data :=
  C6_case_handling_amended.1 "https://youtube.com/watch?v=AbC" "youtube" "AbC" (by decide)

/-- C7 (duration format): every record `fetchVideoData` returns has a duration
matching the pattern of one or more minute digits, a colon, and exactly two
second digits; lengths reported by the primary source are modelled as
non-negative integers, as the claim assumes. -/
theorem C7_duration_format (env : NetworkEnv) (url platform : String)
    (r : VideoData) (h : fetchVideoData env url platform = Except.ok r) :
    matchesDurationPattern r.duration = true := by
  obtain ⟨vid, hvid, hcase⟩ := fetchVideoData_ok_inv env url platform r h
  rcases hcase with ⟨rfl, rfl⟩ | ⟨rfl, rfl⟩ | ⟨rfl, rfl⟩
  · exact youtubeBranch_duration env vid
  · exact instagramBranch_duration env vid
  · exact tiktokBranch_duration env vid

/-- Witness for C7 at a concrete successful resolution. -/
theorem C7_duration_format_witness :
    matchesDurationPattern (youtubeFallback "abc").duration = true :=
  C7_duration_format envAllFail "https://youtu.be/abc" "youtube"
    (youtubeFallback "abc") (by rfl)

/-- C8 (counterexample): for a platform value outside the closed enumeration
the resolver does not raise a distinct unsupported-platform error — it raises
the same invalid-URL-format error as for unmatched URLs, because extraction
already returns `null` on the unknown platform before the switch's
unsupported-platform branch can be reached; this holds even for a URL that a
supported platform would accept. -/
theorem C8_unsupported_platform_counterexample :
    fetchVideoData envAllFail "https://vimeo.com/123" "vimeo"
        = Except.error (FetchError.invalidUrlFormat "vimeo") ∧
    fetchVideoData envAllFail "https://www.youtube.com/watch?v=x" "vimeo"
        = Except.error (FetchError.invalidUrlFormat "vimeo") :=
  ⟨by rfl, by rfl⟩

/-- C8 (amended): for every platform value outside the closed enumeration and
every URL and network oracle, the resolver raises the invalid-URL-format
error (the identifier extractor returns `null` on unknown platforms, so the
unsupported-platform throw of the switch's default branch is unreachable). -/
theorem C8_unsupported_platform_amended (env : NetworkEnv) (url platform : String)
    (h1 : platform ≠ "youtube") (h2 : platform ≠ "instagram")
    (h3 : platform ≠ "tiktok") :
    fetchVideoData env url platform
      = Except.error (FetchError.invalidUrlFormat platform) := by
  have hx : extractVideoId url platform = none := by
    unfold extractVideoId
    split
    · exact absurd rfl h1
    · exact absurd rfl h2
    · exact absurd rfl h3
    · rfl
  simp [fetchVideoData, hx]

/-- Witness for the amended C8 at a concrete unknown platform. -/
theorem C8_unsupported_platform_amended_witness :
    fetchVideoData envAllFail "https://vimeo.com/123" "vimeo"
      = Except.error (FetchError.invalidUrlFormat "vimeo") :=
  C8_unsupported_platform_amended envAllFail "https://vimeo.com/123" "vimeo"
    (by decide) (by decide) (by decide)

/-- C9 (TikTok identifiers are numeric): every identifier the TikTok pattern
extracts is a non-empty string of decimal digits, while the YouTube and
Instagram patterns accept identifiers with non-digit characters. -/
theorem C9_tiktok_numeric :
    (∀ url id, extractVideoId url "tiktok" = some id →
        id ≠ "" ∧ ∀ c ∈ id.data, c.isDigit = true) ∧
    extractVideoId "https://youtu.be/abcDEF" "youtube" = some "abcDEF" ∧
    extractVideoId "https://www.instagram.com/p/AbC_12/" "instagram" = some "AbC_12" := by
  refine ⟨?_, by decide, by decide⟩
  intro url id h
  have h' : (ttScan url.data).map List.asString = some id := h
  obtain ⟨cap, hcap, rfl⟩ := Option.map_eq_some'.mp h'
  obtain ⟨hne, hdig, -⟩ := ttScan_spec url.data cap hcap
  refine ⟨?_, ?_⟩
  · intro h0
    exact hne (by simpa [asString_data] using congrArg String.data h0)
  · rw [asString_data]
    exact hdig

/-- Witness for C9 at a concrete TikTok URL. -/
theorem C9_tiktok_numeric_witness :
    ("123" : String) ≠ "" ∧ ∀ c ∈ ("123" : String).data, c.isDigit = true :=
  C9_tiktok_numeric.1 "https://www.tiktok.com/v/123" "123" (by decide)

/-- C10 (YouTube extraction stops only at an ampersand): for a URL built from
either YouTube host token followed by any tail whose leading run of
non-ampersand characters is non-empty, the extracted identifier is exactly
that maximal run (`takeWhile` of the tail), up to the first `'&'` or the end
of the string; in particular a `?si=...` query suffix on a short link is kept
inside the identifier, as the concrete case shows. -/
theorem C10_stops_at_ampersand :
    (∀ v : String, v.data.takeWhile (fun ch => ch != '&') ≠ [] →
        extractVideoId ("https://youtu.be/" ++ v) "youtube"
          = some (List.asString (v.data.takeWhile (fun ch => ch != '&')))) ∧
    (∀ v : String, v.data.takeWhile (fun ch => ch != '&') ≠ [] →
        extractVideoId ("https://www.youtube.com/watch?v=" ++ v) "youtube"
          = some (List.asString (v.data.takeWhile (fun ch => ch != '&')))) ∧
    extractVideoId "https://youtu.be/abc?si=42" "youtube" = some "abc?si=42" := by
  refine ⟨fun v hv => ?_, fun v hv => ?_, by decide⟩
  · show (ytScan ("https://youtu.be/" ++ v).data).map List.asString = _
    rw [String.data_append, ytScan_youtu_be_url v.data hv]
    rfl
  · show (ytScan ("https://www.youtube.com/watch?v=" ++ v).data).map List.asString = _
    rw [String.data_append, ytScan_watch_url v.data hv]
    rfl

/-- Witness for C10 at the concrete short-link input of the claim. -/
theorem C10_stops_at_ampersand_witness :
    extractVideoId ("https://youtu.be/" ++ "abc?si=42") "youtube"
      = some (List.asString (("abc?si=42" : String).data.takeWhile (fun ch => ch != '&'))) :=
  C10_stops_at_ampersand.1 "abc?si=42" (by decide)

